import Mathlib

/-!
Shallow embedding of the tg-proxy serverless handlers.

Source files embedded here:
- netlify/functions/send-photo.js : JSON body handler (photoUrl or photoBase64).
- unnamed/part_000 : raw binary body handler, credentials in query parameters.
- unnamed/part_001 : multipart/form-data handler (busboy based).

JavaScript values that can flow through the handlers are modelled by JsVal
(undefined is modelled by Option.none around JsVal). Buffers are modelled by
their byte length, the only attribute any handler observes. The axios call and
the JSON.parse / busboy collaborators are modelled by their outcomes, passed to
the handler as explicit inputs.
-/

namespace TgProxy

/-- A JavaScript value as it can appear in a parsed JSON body or a query
parameter: null, a string, or a number (thread ids and chat ids are integral). -/
inductive JsVal where
  | null
  | str (s : String)
  | num (n : Int)
deriving DecidableEq, Repr

/-- JavaScript truthiness of a defined value: null is falsy, the empty string
is falsy, the number 0 is falsy. -/
def JsVal.truthy : JsVal → Bool
  | .null => false
  | .str s => s != ""
  | .num n => n != 0

/-- Truthiness of a possibly undefined value (undefined is falsy). -/
def jsTruthy : Option JsVal → Bool
  | none => false
  | some v => v.truthy

/-- The JavaScript expression a || b on possibly undefined values. -/
def jsOr (a b : Option JsVal) : Option JsVal :=
  if jsTruthy a then a else b

/-- The JavaScript String(v) coercion of a defined value. -/
def jsToString : JsVal → String
  | .null => "null"
  | .str s => s
  | .num n => toString n

/-- Template literal or String() coercion of a possibly undefined value. -/
def tmplVal : Option JsVal → String
  | none => "undefined"
  | some v => jsToString v

/-- An environment variable value lifted into the JsVal world. -/
def envVal : Option String → Option JsVal :=
  fun o => o.map JsVal.str

/-- Truthiness of a possibly undefined string (query parameter, env var). -/
def truthyS : Option String → Bool
  | none => false
  | some s => s != ""

/-- The JavaScript expression a || b on possibly undefined strings. -/
def sOr (a b : Option String) : Option String :=
  if truthyS a then a else b

/-- Template literal coercion of a possibly undefined string. -/
def jsTemplateS : Option String → String
  | none => "undefined"
  | some s => s

/-- The JavaScript expression d || fallback with a string fallback. -/
def orDefault (d : Option String) (fallback : String) : String :=
  match d with
  | none => fallback
  | some s => if s = "" then fallback else s

/-- The JavaScript expression m || fallback on two plain strings. -/
def orDefaultStr (m fallback : String) : String :=
  if m = "" then fallback else m

/-- Characters of the base64 alphabet (padding contributes no bytes). -/
def isB64Char (c : Char) : Bool :=
  c.isAlphanum || c == '+' || c == '/'

/-- Byte length of Buffer.from(s, base64) under the permissive Node decoder,
which skips characters outside the base64 alphabet: three bytes for every four
alphabet characters, truncating. -/
def b64DecodedLen (s : String) : Nat :=
  ((s.toList.filter isB64Char).length * 3) / 4

/-- Whether pat is a prefix of s, on character lists. -/
def listIsPre (pat s : List Char) : Bool :=
  match pat, s with
  | [], _ => true
  | _ :: _, [] => false
  | a :: as, b :: bs => a == b && listIsPre as bs

/-- Whether pat occurs inside s, on character lists. -/
def listHasInfix (pat s : List Char) : Bool :=
  match s with
  | [] => listIsPre pat []
  | c :: rest => listIsPre pat (c :: rest) || listHasInfix pat rest

/-- The JavaScript expression s.includes(pat). -/
def containsSub (s pat : String) : Bool :=
  listHasInfix pat.toList s.toList

/-- The result object of a successful Telegram sendPhoto response:
response.data.result.message_id and response.data.result.chat.id. -/
structure TgResult where
  message_id : JsVal
  chat_id : JsVal
deriving DecidableEq, Repr

/-- Outcome of the single axios.post call a handler makes: a 2xx response with
a result object, an error response with a status and an optional description
field in its data plus the error message axios sets, or a network failure
where no response was received (only the axios error message exists). -/
inductive AxiosOutcome where
  | ok (result : TgResult)
  | httpErr (status : Nat) (description : Option String) (message : String)
  | netErr (message : String)
deriving DecidableEq, Repr

/-- One part appended to a form-data body: a plain field or a buffer file part
(the buffer is modelled by its byte length). -/
inductive FormPart where
  | field (name : String) (value : JsVal)
  | file (name : String) (byteLen : Nat) (filename : Option JsVal) (contentType : Option JsVal)
deriving DecidableEq, Repr

/-- The JSON payload the URL path posts to the Telegram API, after the
delete-undefined pass: a field that is none was deleted (it was undefined);
a field that is some v is serialized with value v, null included. -/
structure JsonPayload where
  chat_id : Option JsVal
  photo : Option JsVal
  caption : Option JsVal
  message_thread_id : Option JsVal
  parse_mode : Option JsVal
deriving DecidableEq, Repr

/-- The outbound call a handler performed: none, a JSON post, or a multipart
form post, each with the target URL and the configured timeout in ms. -/
inductive Submission where
  | noCall
  | json (url : String) (payload : JsonPayload) (timeoutMs : Nat)
  | form (url : String) (parts : List FormPart) (timeoutMs : Nat)
deriving DecidableEq, Repr

/-- Whether the submission is a JSON post. -/
def Submission.isJson : Submission → Bool
  | .json _ _ _ => true
  | _ => false

/-- Whether the submission is a multipart form post. -/
def Submission.isForm : Submission → Bool
  | .form _ _ _ => true
  | _ => false

/-- Whether any outbound call was made at all. -/
def Submission.isCall : Submission → Bool
  | .noCall => false
  | _ => true

/-- The target URL of the submission, when a call was made. -/
def Submission.url? : Submission → Option String
  | .noCall => none
  | .json u _ _ => some u
  | .form u _ _ => some u

/-- The JSON payload of the submission, when it is a JSON post. -/
def Submission.jsonPayload? : Submission → Option JsonPayload
  | .json _ p _ => some p
  | _ => none

/-- Whether a form part is a plain field with the given name. -/
def partIsField (n : String) (p : FormPart) : Bool :=
  match p with
  | .field m _ => m == n
  | _ => false

/-- Whether a multipart submission carries a plain field with the given name. -/
def formHasField (s : Submission) (n : String) : Bool :=
  match s with
  | .form _ parts _ => parts.any (partIsField n)
  | _ => false

/-- The value of the last plain field with the given name in a multipart
submission. -/
def formFieldVal (s : Submission) (n : String) : Option JsVal :=
  match s with
  | .form _ parts _ =>
      (parts.reverse.find? (partIsField n)).bind fun p =>
        match p with
        | .field _ v => some v
        | _ => none
  | _ => none

/-- The part list of a multipart submission (empty when no form post). -/
def Submission.parts : Submission → List FormPart
  | .form _ ps _ => ps
  | _ => []

/-- Whether a threadId value passes the undefined and null guard of the
multipart path, so that message_thread_id is appended. -/
def sentThread (o : Option JsVal) : Bool :=
  match o with
  | none => false
  | some JsVal.null => false
  | some _ => true

/-- The conditional append of the caption field on the multipart path:
appended only when the caption value is truthy. -/
def capParts (caption : Option JsVal) : List FormPart :=
  match caption with
  | some c => if c.truthy then [FormPart.field "caption" c] else []
  | none => []

/-- The conditional append of the parse_mode field on the multipart path:
appended only when the parseMode value is truthy. -/
def pmParts (parseMode : Option JsVal) : List FormPart :=
  match parseMode with
  | some pm => if pm.truthy then [FormPart.field "parse_mode" pm] else []
  | none => []

/-- The conditional append of the message_thread_id field on the multipart
path: appended as String(threadId) unless threadId is undefined or null. -/
def tidParts (threadId : Option JsVal) : List FormPart :=
  match threadId with
  | some JsVal.null => []
  | some v => [FormPart.field "message_thread_id" (JsVal.str (jsToString v))]
  | none => []

/-- Byte lengths of the file parts named photo in a part list. -/
def photoLens (parts : List FormPart) : List Nat :=
  parts.filterMap fun p =>
    match p with
    | .file n len _ _ => if n = "photo" then some len else none
    | _ => none

/-- The chat identifier the submission carries: the chat_id field of the JSON
payload, or the value of the chat_id form field. -/
def Submission.chatField? : Submission → Option JsVal
  | .json _ p _ => p.chat_id
  | s => formFieldVal s "chat_id"

/-- The JSON body a handler responds with; a field that is none is absent from
the serialized body (JSON.stringify drops undefined properties). hasExample
records whether the body carried the documentation example object. -/
structure RespBody where
  message : Option String := none
  error : Option String := none
  success : Option Bool := none
  ok : Option Bool := none
  messageId : Option JsVal := none
  chatId : Option JsVal := none
  timestamp : Option String := none
  hasExample : Bool := false
deriving DecidableEq, Repr

/-- A handler response: status code, headers and JSON body. -/
structure Resp where
  statusCode : Nat
  headers : List (String × String)
  body : RespBody
deriving DecidableEq, Repr

/-- The CORS headers of the send-photo handler. -/
def corsHeaders1 : List (String × String) :=
  [("Access-Control-Allow-Origin", "*"),
   ("Access-Control-Allow-Methods", "GET, POST, OPTIONS"),
   ("Access-Control-Allow-Headers", "Content-Type, Authorization"),
   ("Content-Type", "application/json")]

/-- The CORS headers of the raw-body and multipart handlers. -/
def corsHeadersB : List (String × String) :=
  [("Access-Control-Allow-Origin", "*"),
   ("Access-Control-Allow-Methods", "POST, OPTIONS"),
   ("Access-Control-Allow-Headers", "Content-Type, Authorization"),
   ("Content-Type", "application/json")]

/-- The process environment defaults BOT_TOKEN and CHAT_ID. -/
structure Env where
  BOT_TOKEN : Option String
  CHAT_ID : Option String
deriving Repr

/-- The fields the send-photo handler reads from the parsed JSON body; none is
an absent (undefined) property. -/
structure ReqBody where
  botToken : Option JsVal := none
  chatId : Option JsVal := none
  photoUrl : Option JsVal := none
  photo : Option JsVal := none
  photoBase64 : Option JsVal := none
  fileName : Option JsVal := none
  mimeType : Option JsVal := none
  caption : Option JsVal := none
  parseMode : Option JsVal := none
  threadId : Option JsVal := none
deriving Repr

/-- Outcome of JSON.parse(event.body || "{}"): a SyntaxError or a parsed body. -/
inductive BodyParse where
  | malformed
  | parsed (b : ReqBody)

/-- The inbound event of the send-photo handler: the HTTP method and the
outcome of parsing the JSON body. -/
structure Event1 where
  httpMethod : String
  bodyParse : BodyParse

/-- The URL of the Telegram sendPhoto endpoint for a given bot token string. -/
def tgApiUrl (token : String) : String :=
  "https://api.telegram.org/bot" ++ token ++ "/sendPhoto"

/-- The catch branch of the send-photo handler for an axios error that carries
a response: the upstream status is propagated verbatim and the message is the
description with status-specific overrides. -/
def tgFailResp1 (status : Nat) (d : Option String) (now : String) : Resp :=
  let errorMessage := orDefault d "Telegram API error"
  let errorMessage :=
    if status = 400 then "Bad Request: " ++ jsTemplateS d
    else if status = 401 then "Unauthorized: Invalid bot token"
    else if status = 403 then "Forbidden: Bot was blocked by user or kicked from chat"
    else if status = 404 then "Not Found: Chat not found"
    else errorMessage
  ⟨status, corsHeaders1, { success := some false, error := some errorMessage, timestamp := some now }⟩

/-- The catch branch of the send-photo handler for an axios error with a
request but no response: status stays 500 and the message is fixed. -/
def netFailResp1 (now : String) : Resp :=
  ⟨500, corsHeaders1,
   { success := some false,
     error := some "Network error: Unable to reach Telegram API",
     timestamp := some now }⟩

/-- The send-photo handler (netlify/functions/send-photo.js), as a function of
the environment, the inbound event, the outcome of the single axios call, and
the timestamp new Date().toISOString() would produce. Returns the response
together with the outbound submission that was performed. -/
def handler1 (env : Env) (ev : Event1) (net : AxiosOutcome) (now : String) :
    Resp × Submission :=
  if ev.httpMethod = "OPTIONS" then
    (⟨200, corsHeaders1, { message := some "OK" }⟩, .noCall)
  else if ev.httpMethod ≠ "POST" then
    (⟨405, corsHeaders1, { error := some "Method not allowed. Use POST." }⟩, .noCall)
  else
    match ev.bodyParse with
    | .malformed =>
        (⟨400, corsHeaders1,
          { success := some false, error := some "Invalid JSON in request body",
            timestamp := some now }⟩, .noCall)
    | .parsed b =>
      let botToken := jsOr b.botToken (envVal env.BOT_TOKEN)
      let chatId := jsOr b.chatId (envVal env.CHAT_ID)
      let photoUrl := jsOr b.photoUrl b.photo
      let photoBase64 := b.photoBase64
      let fileName := jsOr b.fileName (some (JsVal.str "photo.png"))
      let mimeType := jsOr b.mimeType (some (JsVal.str "image/png"))
      if ¬ jsTruthy botToken then
        (⟨400, corsHeaders1,
          { error := some "Bot token is required (either in request body or BOT_TOKEN environment variable)",
            hasExample := true }⟩, .noCall)
      else if ¬ jsTruthy chatId then
        (⟨400, corsHeaders1,
          { error := some "Chat ID is required (either in request body or CHAT_ID environment variable)",
            hasExample := true }⟩, .noCall)
      else if ¬ jsTruthy photoUrl ∧ ¬ jsTruthy photoBase64 then
        (⟨400, corsHeaders1,
          { error := some "Either photoUrl (recommended) or photoBase64 is required",
            hasExample := true }⟩, .noCall)
      else
        let telegramApiUrl := tgApiUrl (tmplVal botToken)
        if jsTruthy photoUrl then
          let payload : JsonPayload :=
            { chat_id := chatId, photo := photoUrl, caption := b.caption,
              message_thread_id := b.threadId,
              parse_mode := if jsTruthy b.parseMode then b.parseMode else none }
          let sub := Submission.json telegramApiUrl payload 10000
          match net with
          | .ok r =>
              (⟨200, corsHeaders1,
                { success := some true, message := some "Photo sent successfully (by URL)",
                  messageId := some r.message_id, chatId := some r.chat_id,
                  timestamp := some now }⟩, sub)
          | .httpErr s d _ => (tgFailResp1 s d now, sub)
          | .netErr _ => (netFailResp1 now, sub)
        else
          match photoBase64 with
          | some (JsVal.str s) =>
            let bufLen := b64DecodedLen s
            let parts :=
              [FormPart.field "chat_id" (JsVal.str (tmplVal chatId)),
               FormPart.file "photo" bufLen fileName mimeType]
              ++ capParts b.caption ++ pmParts b.parseMode ++ tidParts b.threadId
            let sub := Submission.form telegramApiUrl parts 20000
            match net with
            | .ok r =>
                (⟨200, corsHeaders1,
                  { success := some true,
                    message := some "Photo sent successfully (by base64 upload)",
                    messageId := some r.message_id, chatId := some r.chat_id,
                    timestamp := some now }⟩, sub)
            | .httpErr s d _ => (tgFailResp1 s d now, sub)
            | .netErr _ => (netFailResp1 now, sub)
          | _ =>
            (⟨400, corsHeaders1,
              { success := some false,
                error := some "Invalid photoBase64. Must be a valid base64 string.",
                timestamp := some now }⟩, .noCall)

/-- The query parameters the raw-body simple handler reads; none is an absent
parameter (query parameter values are strings). -/
structure QS0 where
  botToken : Option String := none
  chatId : Option String := none
deriving Repr

/-- The inbound event of the raw-body simple handler (unnamed/part_000): the
method, the query parameters object, the raw body and the base64 transport
flag set by the platform. -/
structure Event0 where
  httpMethod : String
  queryStringParameters : Option QS0
  body : Option String
  isBase64Encoded : Bool

/-- The byte length of the file buffer the raw-body handlers build from the
event body: a base64 transport decode or the utf8 bytes of the body string. -/
def rawBufLen (body : Option String) (isB64 : Bool) : Nat :=
  if isB64 then b64DecodedLen (body.getD "")
  else (body.getD "").utf8ByteSize

/-- The shared catch and success mapping of the raw-body and multipart
handlers: status err.response.status falling back to 500, description falling
back to the axios error message and then Internal error; on success the body
is ok plus the upstream message id. -/
def rawNetResp (net : AxiosOutcome) : Resp :=
  match net with
  | .ok r => ⟨200, corsHeadersB, { ok := some true, messageId := some r.message_id }⟩
  | .httpErr s d m =>
      ⟨(if s = 0 then 500 else s), corsHeadersB,
       { ok := some false, error := some (orDefault d (orDefaultStr m "Internal error")) }⟩
  | .netErr m =>
      ⟨500, corsHeadersB,
       { ok := some false, error := some (orDefaultStr m "Internal error") }⟩

/-- The raw-body simple handler (unnamed/part_000): credentials from query
parameters with environment fallback, the whole request body as the photo
buffer, one multipart post with fixed filename chart.png. -/
def handler0 (env : Env) (ev : Event0) (net : AxiosOutcome) : Resp × Submission :=
  if ev.httpMethod = "OPTIONS" then
    (⟨200, corsHeadersB, { ok := some true }⟩, .noCall)
  else if ev.httpMethod ≠ "POST" then
    (⟨405, corsHeadersB, { ok := some false, error := some "Only POST allowed" }⟩, .noCall)
  else
    let qs := ev.queryStringParameters.getD {}
    let botToken := sOr qs.botToken env.BOT_TOKEN
    let chatId := sOr qs.chatId env.CHAT_ID
    if ¬ truthyS botToken then
      (⟨400, corsHeadersB, { ok := some false, error := some "botToken is required" }⟩, .noCall)
    else if ¬ truthyS chatId then
      (⟨400, corsHeadersB, { ok := some false, error := some "chatId is required" }⟩, .noCall)
    else
      let bufLen := rawBufLen ev.body ev.isBase64Encoded
      if bufLen = 0 then
        (⟨400, corsHeadersB, { ok := some false, error := some "Empty file body" }⟩, .noCall)
      else
        let telegramApiUrl := tgApiUrl (jsTemplateS botToken)
        let parts :=
          [FormPart.field "chat_id" (JsVal.str (jsTemplateS chatId)),
           FormPart.file "photo" bufLen (some (JsVal.str "chart.png")) (some (JsVal.str "image/png"))]
        let sub := Submission.form telegramApiUrl parts 20000
        (rawNetResp net, sub)

/-- A file event busboy emits while parsing the multipart stream: the part
name, the optional filename and mime type from the info object, and the byte
lengths of the data chunks of the part. -/
structure FileEvt where
  name : String
  filename : Option String
  mimeType : Option String
  chunkLens : List Nat
deriving Repr

/-- Outcome of streaming the decoded body through busboy: an error event, or
the field and file events in order. -/
inductive BusboyOut where
  | err (message : String)
  | events (fields : List (String × String)) (files : List FileEvt)

/-- The inbound event of the multipart handler (unnamed/part_001): the method,
the two content type header lookups, and the busboy outcome for the body. -/
structure Event2 where
  httpMethod : String
  contentTypeLower : Option String
  contentTypeUpper : Option String
  busboy : BusboyOut

/-- The record parseMultipart resolves with: the collected fields, the photo
file buffer when a photo part arrived (by its byte length), and the filename
and mime type with their defaults. -/
structure MpOut where
  fields : List (String × String)
  fileBuffer : Option Nat
  filename : String
  mimeType : String
deriving Repr

/-- Lookup of a busboy field by name; a later field event overwrites an
earlier one with the same name. -/
def getField (fields : List (String × String)) (n : String) : Option String :=
  (fields.reverse.find? fun p => p.1 == n).map fun p => p.2

/-- The parseMultipart helper of the multipart handler: rejects when the
content type header is missing or does not include multipart/form-data,
propagates a busboy error, and otherwise folds the file events, keeping only
parts named photo (later photo parts overwrite the buffer, filename and mime
type, each defaulting through truthiness). -/
def parseMultipart (ev : Event2) : Except String MpOut :=
  let contentType := sOr ev.contentTypeLower ev.contentTypeUpper
  match contentType with
  | none => .error "Expected multipart/form-data"
  | some ct =>
    if ct = "" ∨ ¬ containsSub ct "multipart/form-data" then
      .error "Expected multipart/form-data"
    else
      match ev.busboy with
      | .err m => .error m
      | .events fields files =>
        let st := files.foldl
          (fun (acc : Option Nat × String × String) f =>
            if f.name = "photo" then
              (some (f.chunkLens.foldl (· + ·) 0),
               orDefault f.filename acc.2.1,
               orDefault f.mimeType acc.2.2)
            else acc)
          (none, "photo.png", "image/png")
        .ok ⟨fields, st.1, st.2.1, st.2.2⟩

/-- The multipart handler (unnamed/part_001): parses the multipart body,
resolves credentials from the form fields with environment fallback, requires
a non-empty photo buffer, and posts it as multipart form data. -/
def handler2 (env : Env) (ev : Event2) (net : AxiosOutcome) : Resp × Submission :=
  if ev.httpMethod = "OPTIONS" then
    (⟨200, corsHeadersB, { ok := some true }⟩, .noCall)
  else if ev.httpMethod ≠ "POST" then
    (⟨405, corsHeadersB, { ok := some false, error := some "Only POST allowed" }⟩, .noCall)
  else
    match parseMultipart ev with
    | .error m =>
        (⟨500, corsHeadersB,
          { ok := some false, error := some (orDefaultStr m "Internal error") }⟩, .noCall)
    | .ok p =>
      let botToken := sOr (getField p.fields "botToken") env.BOT_TOKEN
      let chatId := sOr (getField p.fields "chatId") env.CHAT_ID
      if ¬ truthyS botToken then
        (⟨400, corsHeadersB, { ok := some false, error := some "botToken is required" }⟩, .noCall)
      else if ¬ truthyS chatId then
        (⟨400, corsHeadersB, { ok := some false, error := some "chatId is required" }⟩, .noCall)
      else if p.fileBuffer.getD 0 = 0 then
        (⟨400, corsHeadersB, { ok := some false, error := some "photo file is required" }⟩, .noCall)
      else
        let telegramApiUrl := tgApiUrl (jsTemplateS botToken)
        let parts :=
          [FormPart.field "chat_id" (JsVal.str (jsTemplateS chatId)),
           FormPart.file "photo" (p.fileBuffer.getD 0)
             (some (JsVal.str p.filename)) (some (JsVal.str p.mimeType))]
        let sub := Submission.form telegramApiUrl parts 20000
        (rawNetResp net, sub)

/-- The error kinds of the spec, section 7, for the modelled handler. -/
inductive ErrKind where
  | methodNotAllowed
  | missingCredential
  | missingImage
  | invalidParameter
  | upstreamRejected
  | networkError
deriving DecidableEq, Repr

/-- The response of the modelled raw-body extended handler: status, error
kind, message, success flag and the upstream message id. -/
structure RespX where
  statusCode : Nat
  errKind : Option ErrKind
  errorMessage : Option String
  ok : Bool
  messageId : Option JsVal
deriving DecidableEq, Repr

/-- The query parameters of the raw-body extended handler. -/
structure QSX where
  botToken : Option String := none
  chatId : Option String := none
  threadId : Option String := none
  caption : Option String := none
deriving Repr

/-- Modelled from the spec: whether a thread id query parameter parses as a
number, meaning an optionally signed decimal integer (the type of a thread
id). -/
def specIsNumeric (s : String) : Bool :=
  match s.toList with
  | [] => false
  | '-' :: rest => !rest.isEmpty && rest.all Char.isDigit
  | l => l.all Char.isDigit

/-- The inbound event of the raw-body extended handler. -/
structure EventX where
  httpMethod : String
  queryStringParameters : Option QSX
  body : Option String
  isBase64Encoded : Bool

/-- Modelled from the spec: the raw-body extended handler (fourth variant of
section 2) is not among the files under src; only the simple raw-body sibling
is. Following sections 2, 4.1, 4.2, 6 and Scenario D of the spec: POST with
OPTIONS preflight, credentials from query parameters with environment
fallback, validation order botToken then chatId, a present-but-non-numeric
threadId query parameter fails with InvalidParameter and a message that
threadId must be numeric (numeric meaning an optionally signed decimal
integer, the type of a thread id), a present-but-whitespace-only caption is
treated as not supplied, an empty body fails with MissingImage, and the
buffer is posted as multipart form data with caption and message_thread_id
appended as strings only when supplied. This definition is the submission
step shared by both threadId branches of the dispatch below. -/
def handlerXSend (env : Env) (qs : QSX) (threadId : Option String)
    (body : Option String) (isB64 : Bool) (net : AxiosOutcome) : RespX × Submission :=
  let botToken := sOr qs.botToken env.BOT_TOKEN
  let chatId := sOr qs.chatId env.CHAT_ID
  let caption :=
    match qs.caption with
    | some c => if c.trim = "" then none else some c
    | none => none
  let bufLen := rawBufLen body isB64
  if bufLen = 0 then
    (⟨400, some .missingImage, some "Empty file body", false, none⟩, .noCall)
  else
    let telegramApiUrl := tgApiUrl (jsTemplateS botToken)
    let parts :=
      [FormPart.field "chat_id" (JsVal.str (jsTemplateS chatId)),
       FormPart.file "photo" bufLen (some (JsVal.str "chart.png")) (some (JsVal.str "image/png"))]
      ++ (match caption with
          | some c => [FormPart.field "caption" (JsVal.str c)]
          | none => [])
      ++ (match threadId with
          | some t => [FormPart.field "message_thread_id" (JsVal.str t)]
          | none => [])
    let sub := Submission.form telegramApiUrl parts 20000
    match net with
    | .ok r => (⟨200, none, none, true, some r.message_id⟩, sub)
    | .httpErr s d _ =>
        (⟨s, some .upstreamRejected, some (orDefault d "Telegram API error"), false, none⟩, sub)
    | .netErr _ =>
        (⟨500, some .networkError, some "Network error: Unable to reach Telegram API", false, none⟩, sub)

/-- Modelled from the spec: dispatch of the raw-body extended handler, see
handlerXSend for the submission step. -/
def handlerX (env : Env) (ev : EventX) (net : AxiosOutcome) : RespX × Submission :=
  if ev.httpMethod = "OPTIONS" then
    (⟨200, none, none, true, none⟩, .noCall)
  else if ev.httpMethod ≠ "POST" then
    (⟨405, some .methodNotAllowed, some "Only POST allowed", false, none⟩, .noCall)
  else
    let qs := ev.queryStringParameters.getD {}
    let botToken := sOr qs.botToken env.BOT_TOKEN
    let chatId := sOr qs.chatId env.CHAT_ID
    if ¬ truthyS botToken then
      (⟨400, some .missingCredential, some "botToken is required", false, none⟩, .noCall)
    else if ¬ truthyS chatId then
      (⟨400, some .missingCredential, some "chatId is required", false, none⟩, .noCall)
    else
      match qs.threadId with
      | some t =>
        if ¬ specIsNumeric t then
          (⟨400, some .invalidParameter, some "threadId must be numeric", false, none⟩, .noCall)
        else
          handlerXSend env qs (some t) ev.body ev.isBase64Encoded net
      | none => handlerXSend env qs none ev.body ev.isBase64Encoded net

/-! ## Claim C1 -/

/-- C1 counterexample: a JSON body that contains both photoUrl (with the empty
string as value) and photoBase64 takes the base64 multipart path, so the
base64 value is decoded and uploaded, refuting the claim that the presence of
both fields always selects the URL path. -/
theorem c1_counterexample :
    (handler1 ⟨none, none⟩
      ⟨"POST", .parsed { botToken := some (.str "t"), chatId := some (.str "c"),
                         photoUrl := some (.str ""), photoBase64 := some (.str "AAAA") }⟩
      (.ok ⟨.num 1, .str "c"⟩) "ts").2.isForm = true := by decide

/-- C1 amended: for every request to the URL handler whose body carries a
truthy (non-empty, non-null) photoUrl or photo alias, with photoBase64 also
present and credentials resolving, the handler takes the URL submission path
(a JSON post), so no base64 decode and no multipart upload occurs. -/
theorem c1_url_precedence (env : Env) (b : ReqBody) (net : AxiosOutcome) (now : String)
    (hurl : jsTruthy (jsOr b.photoUrl b.photo) = true)
    (_hb64 : b.photoBase64.isSome = true)
    (htok : jsTruthy (jsOr b.botToken (envVal env.BOT_TOKEN)) = true)
    (hchat : jsTruthy (jsOr b.chatId (envVal env.CHAT_ID)) = true) :
    (handler1 env ⟨"POST", .parsed b⟩ net now).2.isJson = true := by
  cases net <;> simp [handler1, hurl, htok, hchat, Submission.isJson]

/-- C1 witness: the amended theorem applied at a concrete request carrying
both a non-empty photoUrl and a photoBase64. -/
theorem c1_witness :
    (handler1 ⟨none, none⟩
      ⟨"POST", .parsed { botToken := some (.str "t"), chatId := some (.str "c"),
                         photoUrl := some (.str "u"), photoBase64 := some (.str "AAAA") }⟩
      (.ok ⟨.num 1, .str "c"⟩) "ts").2.isJson = true :=
  c1_url_precedence ⟨none, none⟩
    { botToken := some (.str "t"), chatId := some (.str "c"),
      photoUrl := some (.str "u"), photoBase64 := some (.str "AAAA") }
    (.ok ⟨.num 1, .str "c"⟩) "ts" (by decide) (by decide) (by decide) (by decide)

/-! ## Claim C2 -/

/-- C2: on all three handlers in src, validation runs in a fixed order once
the transport decode succeeded: a falsy resolved botToken yields the 400
missing bot token response, else a falsy resolved chatId yields the 400
missing chat id response, else a missing image yields the 400 missing image
response and an invalid image (a truthy photoBase64 that is not a string, on
which Buffer.from throws) yields the 400 invalid encoding response, and an
outbound submission happens only when all three resolved, and does happen
when they do (for the JSON handler, when the image is a non-empty base64
string or a truthy URL). -/
theorem c2_validation_order :
    (∀ (env : Env) (b : ReqBody) (net : AxiosOutcome) (now : String),
      (jsTruthy (jsOr b.botToken (envVal env.BOT_TOKEN)) = false →
        handler1 env ⟨"POST", .parsed b⟩ net now =
          (⟨400, corsHeaders1,
            { error := some "Bot token is required (either in request body or BOT_TOKEN environment variable)",
              hasExample := true }⟩, .noCall)) ∧
      (jsTruthy (jsOr b.botToken (envVal env.BOT_TOKEN)) = true →
       jsTruthy (jsOr b.chatId (envVal env.CHAT_ID)) = false →
        handler1 env ⟨"POST", .parsed b⟩ net now =
          (⟨400, corsHeaders1,
            { error := some "Chat ID is required (either in request body or CHAT_ID environment variable)",
              hasExample := true }⟩, .noCall)) ∧
      (jsTruthy (jsOr b.botToken (envVal env.BOT_TOKEN)) = true →
       jsTruthy (jsOr b.chatId (envVal env.CHAT_ID)) = true →
       jsTruthy (jsOr b.photoUrl b.photo) = false →
       jsTruthy b.photoBase64 = false →
        handler1 env ⟨"POST", .parsed b⟩ net now =
          (⟨400, corsHeaders1,
            { error := some "Either photoUrl (recommended) or photoBase64 is required",
              hasExample := true }⟩, .noCall)) ∧
      (jsTruthy (jsOr b.botToken (envVal env.BOT_TOKEN)) = true →
       jsTruthy (jsOr b.chatId (envVal env.CHAT_ID)) = true →
       jsTruthy (jsOr b.photoUrl b.photo) = false →
       jsTruthy b.photoBase64 = true →
       (∀ s : String, b.photoBase64 ≠ some (JsVal.str s)) →
        handler1 env ⟨"POST", .parsed b⟩ net now =
          (⟨400, corsHeaders1,
            { success := some false,
              error := some "Invalid photoBase64. Must be a valid base64 string.",
              timestamp := some now }⟩, .noCall)) ∧
      ((handler1 env ⟨"POST", .parsed b⟩ net now).2.isCall = true →
        jsTruthy (jsOr b.botToken (envVal env.BOT_TOKEN)) = true ∧
        jsTruthy (jsOr b.chatId (envVal env.CHAT_ID)) = true ∧
        (jsTruthy (jsOr b.photoUrl b.photo) = true ∨ jsTruthy b.photoBase64 = true)) ∧
      (jsTruthy (jsOr b.botToken (envVal env.BOT_TOKEN)) = true →
       jsTruthy (jsOr b.chatId (envVal env.CHAT_ID)) = true →
       (jsTruthy (jsOr b.photoUrl b.photo) = true ∨
         (∃ s, s ≠ "" ∧ b.photoBase64 = some (JsVal.str s))) →
        (handler1 env ⟨"POST", .parsed b⟩ net now).2.isCall = true))
    ∧
    (∀ (env : Env) (oqs : Option QS0) (obody : Option String) (b64 : Bool) (net : AxiosOutcome),
      (truthyS (sOr (oqs.getD {}).botToken env.BOT_TOKEN) = false →
        handler0 env ⟨"POST", oqs, obody, b64⟩ net =
          (⟨400, corsHeadersB, { ok := some false, error := some "botToken is required" }⟩, .noCall)) ∧
      (truthyS (sOr (oqs.getD {}).botToken env.BOT_TOKEN) = true →
       truthyS (sOr (oqs.getD {}).chatId env.CHAT_ID) = false →
        handler0 env ⟨"POST", oqs, obody, b64⟩ net =
          (⟨400, corsHeadersB, { ok := some false, error := some "chatId is required" }⟩, .noCall)) ∧
      (truthyS (sOr (oqs.getD {}).botToken env.BOT_TOKEN) = true →
       truthyS (sOr (oqs.getD {}).chatId env.CHAT_ID) = true →
       rawBufLen obody b64 = 0 →
        handler0 env ⟨"POST", oqs, obody, b64⟩ net =
          (⟨400, corsHeadersB, { ok := some false, error := some "Empty file body" }⟩, .noCall)) ∧
      ((handler0 env ⟨"POST", oqs, obody, b64⟩ net).2.isCall = true →
        truthyS (sOr (oqs.getD {}).botToken env.BOT_TOKEN) = true ∧
        truthyS (sOr (oqs.getD {}).chatId env.CHAT_ID) = true ∧
        rawBufLen obody b64 ≠ 0) ∧
      (truthyS (sOr (oqs.getD {}).botToken env.BOT_TOKEN) = true →
       truthyS (sOr (oqs.getD {}).chatId env.CHAT_ID) = true →
       rawBufLen obody b64 ≠ 0 →
        (handler0 env ⟨"POST", oqs, obody, b64⟩ net).2.isCall = true))
    ∧
    (∀ (env : Env) (ev : Event2) (net : AxiosOutcome) (p : MpOut),
      ev.httpMethod = "POST" → parseMultipart ev = .ok p →
      (truthyS (sOr (getField p.fields "botToken") env.BOT_TOKEN) = false →
        handler2 env ev net =
          (⟨400, corsHeadersB, { ok := some false, error := some "botToken is required" }⟩, .noCall)) ∧
      (truthyS (sOr (getField p.fields "botToken") env.BOT_TOKEN) = true →
       truthyS (sOr (getField p.fields "chatId") env.CHAT_ID) = false →
        handler2 env ev net =
          (⟨400, corsHeadersB, { ok := some false, error := some "chatId is required" }⟩, .noCall)) ∧
      (truthyS (sOr (getField p.fields "botToken") env.BOT_TOKEN) = true →
       truthyS (sOr (getField p.fields "chatId") env.CHAT_ID) = true →
       p.fileBuffer.getD 0 = 0 →
        handler2 env ev net =
          (⟨400, corsHeadersB, { ok := some false, error := some "photo file is required" }⟩, .noCall)) ∧
      ((handler2 env ev net).2.isCall = true →
        truthyS (sOr (getField p.fields "botToken") env.BOT_TOKEN) = true ∧
        truthyS (sOr (getField p.fields "chatId") env.CHAT_ID) = true ∧
        p.fileBuffer.getD 0 ≠ 0) ∧
      (truthyS (sOr (getField p.fields "botToken") env.BOT_TOKEN) = true →
       truthyS (sOr (getField p.fields "chatId") env.CHAT_ID) = true →
       p.fileBuffer.getD 0 ≠ 0 →
        (handler2 env ev net).2.isCall = true)) := by
  refine ⟨fun env b net now => ⟨?_, ?_, ?_, ?_, ?_, ?_⟩,
          fun env oqs obody b64 net => ⟨?_, ?_, ?_, ?_, ?_⟩,
          fun env ev net p hm hp => ⟨?_, ?_, ?_, ?_, ?_⟩⟩
  · intro h1
    simp [handler1, h1]
  · intro h1 h2
    simp [handler1, h1, h2]
  · intro h1 h2 h3 h4
    simp [handler1, h1, h2, h3, h4]
  · intro h1 h2 h3 h4 hns
    rcases hb : b.photoBase64 with _ | v
    · rw [hb] at h4
      simp [jsTruthy] at h4
    · cases v with
      | null =>
        rw [hb] at h4
        simp [jsTruthy, JsVal.truthy] at h4
      | str s2 => exact absurd hb (hns s2)
      | num n =>
        have h4n : jsTruthy (some (JsVal.num n)) = true := hb ▸ h4
        simp [handler1, h1, h2, h3, h4n, hb]
  · intro hcall
    cases h1 : jsTruthy (jsOr b.botToken (envVal env.BOT_TOKEN)) with
    | false => simp [handler1, h1, Submission.isCall] at hcall
    | true =>
      cases h2 : jsTruthy (jsOr b.chatId (envVal env.CHAT_ID)) with
      | false => simp [handler1, h1, h2, Submission.isCall] at hcall
      | true =>
        refine ⟨rfl, rfl, ?_⟩
        cases h3 : jsTruthy (jsOr b.photoUrl b.photo) with
        | true => exact Or.inl rfl
        | false =>
          cases h4 : jsTruthy b.photoBase64 with
          | false => simp [handler1, h1, h2, h3, h4, Submission.isCall] at hcall
          | true => exact Or.inr rfl
  · intro h1 h2 himg
    cases h3 : jsTruthy (jsOr b.photoUrl b.photo) with
    | true => cases net <;> simp [handler1, h1, h2, h3, Submission.isCall]
    | false =>
      rcases himg with h3t | ⟨s, hs, hb⟩
      · simp [h3t] at h3
      · have h4 : jsTruthy (some (JsVal.str s)) = true := by
          simp [jsTruthy, JsVal.truthy, hs]
        cases net <;> simp [handler1, h1, h2, h3, h4, hb, Submission.isCall]
  · intro h1
    simp [handler0, h1]
  · intro h1 h2
    simp [handler0, h1, h2]
  · intro h1 h2 h3
    simp [handler0, h1, h2, h3]
  · intro hcall
    cases h1 : truthyS (sOr (oqs.getD {}).botToken env.BOT_TOKEN) with
    | false => simp [handler0, h1, Submission.isCall] at hcall
    | true =>
      cases h2 : truthyS (sOr (oqs.getD {}).chatId env.CHAT_ID) with
      | false => simp [handler0, h1, h2, Submission.isCall] at hcall
      | true =>
        refine ⟨rfl, rfl, ?_⟩
        intro h3
        simp [handler0, h1, h2, h3, Submission.isCall] at hcall
  · intro h1 h2 h3
    cases net <;> simp [handler0, h1, h2, h3, Submission.isCall]
  · intro h1
    simp [handler2, hm, hp, h1]
  · intro h1 h2
    simp [handler2, hm, hp, h1, h2]
  · intro h1 h2 h3
    simp [handler2, hm, hp, h1, h2, h3]
  · intro hcall
    cases h1 : truthyS (sOr (getField p.fields "botToken") env.BOT_TOKEN) with
    | false => simp [handler2, hm, hp, h1, Submission.isCall] at hcall
    | true =>
      cases h2 : truthyS (sOr (getField p.fields "chatId") env.CHAT_ID) with
      | false => simp [handler2, hm, hp, h1, h2, Submission.isCall] at hcall
      | true =>
        refine ⟨rfl, rfl, ?_⟩
        intro h3
        simp [handler2, hm, hp, h1, h2, h3, Submission.isCall] at hcall
  · intro h1 h2 h3
    cases net <;> simp [handler2, hm, hp, h1, h2, h3, Submission.isCall]

/-- C2 witness: the first conjunct of the validation order theorem applied at
a request with no credentials at all. -/
theorem c2_witness :
    handler1 ⟨none, none⟩ ⟨"POST", .parsed {}⟩ (.ok ⟨.num 1, .str "c"⟩) "ts" =
      (⟨400, corsHeaders1,
        { error := some "Bot token is required (either in request body or BOT_TOKEN environment variable)",
          hasExample := true }⟩, .noCall) :=
  (c2_validation_order.1 ⟨none, none⟩ {} (.ok ⟨.num 1, .str "c"⟩) "ts").1 (by decide)

/-! ## Claim C3 -/

/-- C3 counterexample: on the raw-body handler a successful upstream call
returns a body holding only ok and messageId; chatId is absent (the upstream
chat id 123 is not copied anywhere) and no generation timestamp exists,
refuting the claim for every variant. -/
theorem c3_counterexample :
    (handler0 ⟨some "t", some "c"⟩ ⟨"POST", none, some "AAAA", true⟩
      (.ok ⟨.num 42, .str "123"⟩)).1 =
    ⟨200, corsHeadersB, { ok := some true, messageId := some (.num 42) }⟩ := by decide

/-- C3 amended: on the URL and base64 paths of the JSON handler, upstream
success yields status 200 with success true, messageId and chatId copied
verbatim from the upstream result object and the generation timestamp; on the
raw-body and multipart handlers, upstream success yields status 200 with ok
true and only the verbatim messageId, with no chatId and no timestamp in the
body. -/
theorem c3_success_mapping :
    (∀ (env : Env) (b : ReqBody) (r : TgResult) (now : String),
      jsTruthy (jsOr b.botToken (envVal env.BOT_TOKEN)) = true →
      jsTruthy (jsOr b.chatId (envVal env.CHAT_ID)) = true →
      jsTruthy (jsOr b.photoUrl b.photo) = true →
        (handler1 env ⟨"POST", .parsed b⟩ (.ok r) now).1 =
          ⟨200, corsHeaders1,
           { success := some true, message := some "Photo sent successfully (by URL)",
             messageId := some r.message_id, chatId := some r.chat_id,
             timestamp := some now }⟩)
    ∧
    (∀ (env : Env) (b : ReqBody) (r : TgResult) (now : String) (s : String),
      jsTruthy (jsOr b.botToken (envVal env.BOT_TOKEN)) = true →
      jsTruthy (jsOr b.chatId (envVal env.CHAT_ID)) = true →
      jsTruthy (jsOr b.photoUrl b.photo) = false →
      b.photoBase64 = some (JsVal.str s) → s ≠ "" →
        (handler1 env ⟨"POST", .parsed b⟩ (.ok r) now).1 =
          ⟨200, corsHeaders1,
           { success := some true, message := some "Photo sent successfully (by base64 upload)",
             messageId := some r.message_id, chatId := some r.chat_id,
             timestamp := some now }⟩)
    ∧
    (∀ (env : Env) (oqs : Option QS0) (obody : Option String) (b64 : Bool) (r : TgResult),
      truthyS (sOr (oqs.getD {}).botToken env.BOT_TOKEN) = true →
      truthyS (sOr (oqs.getD {}).chatId env.CHAT_ID) = true →
      rawBufLen obody b64 ≠ 0 →
        (handler0 env ⟨"POST", oqs, obody, b64⟩ (.ok r)).1 =
          ⟨200, corsHeadersB, { ok := some true, messageId := some r.message_id }⟩)
    ∧
    (∀ (env : Env) (ev : Event2) (r : TgResult) (p : MpOut),
      ev.httpMethod = "POST" → parseMultipart ev = .ok p →
      truthyS (sOr (getField p.fields "botToken") env.BOT_TOKEN) = true →
      truthyS (sOr (getField p.fields "chatId") env.CHAT_ID) = true →
      p.fileBuffer.getD 0 ≠ 0 →
        (handler2 env ev (.ok r)).1 =
          ⟨200, corsHeadersB, { ok := some true, messageId := some r.message_id }⟩) := by
  refine ⟨fun env b r now h1 h2 h3 => ?_,
          fun env b r now s h1 h2 h3 hb hs => ?_,
          fun env oqs obody b64 r h1 h2 h3 => ?_,
          fun env ev r p hm hp h1 h2 h3 => ?_⟩
  · simp [handler1, h1, h2, h3]
  · have h4 : jsTruthy (some (JsVal.str s)) = true := by
      simp [jsTruthy, JsVal.truthy, hs]
    simp [handler1, h1, h2, h3, h4, hb]
  · simp [handler0, h1, h2, h3, rawNetResp]
  · simp [handler2, hm, hp, h1, h2, h3, rawNetResp]

/-- C3 witness: the first conjunct of the success mapping theorem applied at
a concrete URL request whose upstream answered message id 42 in chat 123. -/
theorem c3_witness :
    (handler1 ⟨none, none⟩
      ⟨"POST", .parsed { botToken := some (.str "t"), chatId := some (.str "c"),
                         photoUrl := some (.str "u") }⟩
      (.ok ⟨.num 42, .str "123"⟩) "ts").1 =
      ⟨200, corsHeaders1,
       { success := some true, message := some "Photo sent successfully (by URL)",
         messageId := some (.num 42), chatId := some (.str "123"),
         timestamp := some "ts" }⟩ :=
  c3_success_mapping.1 ⟨none, none⟩
    { botToken := some (.str "t"), chatId := some (.str "c"), photoUrl := some (.str "u") }
    ⟨.num 42, .str "123"⟩ "ts" (by decide) (by decide) (by decide)

/-! ## Claim C4 -/

/-- C4 counterexample: on the raw-body handler an upstream 403 with a
description is answered with the upstream description itself, not with the
fixed Forbidden message the claim attributes to every variant (the status is
still 403). -/
theorem c4_counterexample :
    (handler0 ⟨some "t", some "c"⟩ ⟨"POST", none, some "AAAA", true⟩
      (.httpErr 403 (some "Forbidden: user blocked") "Request failed with status code 403")).1 =
      ⟨403, corsHeadersB, { ok := some false, error := some "Forbidden: user blocked" }⟩ ∧
    (handler0 ⟨some "t", some "c"⟩ ⟨"POST", none, some "AAAA", true⟩
      (.httpErr 403 (some "Forbidden: user blocked") "Request failed with status code 403")).1.body.error ≠
      some "Forbidden: Bot was blocked by user or kicked from chat" := by decide

/-- C4 amended: the upstream status is propagated verbatim on every variant,
but the status-keyed message overrides (400 Bad Request prefix, 401, 403, 404
fixed texts, Telegram API error fallback) apply only on the JSON handler; the
raw-body and multipart handlers answer with the upstream description itself,
falling back to the axios error message and then to Internal error. -/
theorem c4_upstream_error_mapping :
    (∀ (env : Env) (b : ReqBody) (now : String) (st : Nat) (d : Option String) (m : String),
      jsTruthy (jsOr b.botToken (envVal env.BOT_TOKEN)) = true →
      jsTruthy (jsOr b.chatId (envVal env.CHAT_ID)) = true →
      jsTruthy (jsOr b.photoUrl b.photo) = true →
        (handler1 env ⟨"POST", .parsed b⟩ (.httpErr st d m) now).1 =
          ⟨st, corsHeaders1,
           { success := some false,
             error := some
               (if st = 400 then "Bad Request: " ++ jsTemplateS d
                else if st = 401 then "Unauthorized: Invalid bot token"
                else if st = 403 then "Forbidden: Bot was blocked by user or kicked from chat"
                else if st = 404 then "Not Found: Chat not found"
                else orDefault d "Telegram API error"),
             timestamp := some now }⟩)
    ∧
    (∀ (env : Env) (b : ReqBody) (now : String) (st : Nat) (d : Option String) (m : String) (s : String),
      jsTruthy (jsOr b.botToken (envVal env.BOT_TOKEN)) = true →
      jsTruthy (jsOr b.chatId (envVal env.CHAT_ID)) = true →
      jsTruthy (jsOr b.photoUrl b.photo) = false →
      b.photoBase64 = some (JsVal.str s) → s ≠ "" →
        (handler1 env ⟨"POST", .parsed b⟩ (.httpErr st d m) now).1 =
          ⟨st, corsHeaders1,
           { success := some false,
             error := some
               (if st = 400 then "Bad Request: " ++ jsTemplateS d
                else if st = 401 then "Unauthorized: Invalid bot token"
                else if st = 403 then "Forbidden: Bot was blocked by user or kicked from chat"
                else if st = 404 then "Not Found: Chat not found"
                else orDefault d "Telegram API error"),
             timestamp := some now }⟩)
    ∧
    (∀ (env : Env) (oqs : Option QS0) (obody : Option String) (b64 : Bool)
       (st : Nat) (d : Option String) (m : String),
      truthyS (sOr (oqs.getD {}).botToken env.BOT_TOKEN) = true →
      truthyS (sOr (oqs.getD {}).chatId env.CHAT_ID) = true →
      rawBufLen obody b64 ≠ 0 → st ≠ 0 →
        (handler0 env ⟨"POST", oqs, obody, b64⟩ (.httpErr st d m)).1 =
          ⟨st, corsHeadersB,
           { ok := some false, error := some (orDefault d (orDefaultStr m "Internal error")) }⟩)
    ∧
    (∀ (env : Env) (ev : Event2) (p : MpOut) (st : Nat) (d : Option String) (m : String),
      ev.httpMethod = "POST" → parseMultipart ev = .ok p →
      truthyS (sOr (getField p.fields "botToken") env.BOT_TOKEN) = true →
      truthyS (sOr (getField p.fields "chatId") env.CHAT_ID) = true →
      p.fileBuffer.getD 0 ≠ 0 → st ≠ 0 →
        (handler2 env ev (.httpErr st d m)).1 =
          ⟨st, corsHeadersB,
           { ok := some false, error := some (orDefault d (orDefaultStr m "Internal error")) }⟩) := by
  refine ⟨fun env b now st d m h1 h2 h3 => ?_,
          fun env b now st d m s h1 h2 h3 hb hs => ?_,
          fun env oqs obody b64 st d m h1 h2 h3 hst => ?_,
          fun env ev p st d m hm hp h1 h2 h3 hst => ?_⟩
  · simp [handler1, h1, h2, h3, tgFailResp1]
  · have h4 : jsTruthy (some (JsVal.str s)) = true := by
      simp [jsTruthy, JsVal.truthy, hs]
    simp [handler1, h1, h2, h3, h4, hb, tgFailResp1]
  · simp [handler0, h1, h2, h3, hst, rawNetResp]
  · simp [handler2, hm, hp, h1, h2, h3, hst, rawNetResp]

/-- C4 witness: the first conjunct of the upstream error mapping theorem at a
concrete URL request rejected upstream with status 403. -/
theorem c4_witness :
    (handler1 ⟨none, none⟩
      ⟨"POST", .parsed { botToken := some (.str "t"), chatId := some (.str "c"),
                         photoUrl := some (.str "u") }⟩
      (.httpErr 403 (some "Forbidden: bot was blocked by the user") "Request failed with status code 403") "ts").1 =
      ⟨403, corsHeaders1,
       { success := some false,
         error := some "Forbidden: Bot was blocked by user or kicked from chat",
         timestamp := some "ts" }⟩ := by
  have h := c4_upstream_error_mapping.1 ⟨none, none⟩
    { botToken := some (.str "t"), chatId := some (.str "c"), photoUrl := some (.str "u") }
    "ts" 403 (some "Forbidden: bot was blocked by the user") "Request failed with status code 403"
    (by decide) (by decide) (by decide)
  simpa using h

/-! ## Claim C5 -/

/-- C5 counterexample: on the multipart handler an outbound call that fails
with no response is answered with status 500 but with the underlying axios
error message, not with the fixed network error text the claim attributes to
every variant. -/
theorem c5_counterexample :
    (handler2 ⟨some "t", some "c"⟩
      ⟨"POST", some "multipart/form-data; boundary=x", none,
       .events [] [⟨"photo", some "a.png", some "image/png", [3]⟩]⟩
      (.netErr "timeout of 20000ms exceeded")).1 =
      ⟨500, corsHeadersB, { ok := some false, error := some "timeout of 20000ms exceeded" }⟩ ∧
    (handler2 ⟨some "t", some "c"⟩
      ⟨"POST", some "multipart/form-data; boundary=x", none,
       .events [] [⟨"photo", some "a.png", some "image/png", [3]⟩]⟩
      (.netErr "timeout of 20000ms exceeded")).1.body.error ≠
      some "Network error: Unable to reach Telegram API" := by decide

/-- C5 amended: when the outbound call fails with no response received, the
JSON handler answers status 500 with the fixed message Network error: Unable
to reach Telegram API; the raw-body and multipart handlers answer status 500
with the underlying error message, falling back to Internal error. -/
theorem c5_network_error_mapping :
    (∀ (env : Env) (b : ReqBody) (now : String) (m : String),
      jsTruthy (jsOr b.botToken (envVal env.BOT_TOKEN)) = true →
      jsTruthy (jsOr b.chatId (envVal env.CHAT_ID)) = true →
      jsTruthy (jsOr b.photoUrl b.photo) = true →
        (handler1 env ⟨"POST", .parsed b⟩ (.netErr m) now).1 =
          ⟨500, corsHeaders1,
           { success := some false,
             error := some "Network error: Unable to reach Telegram API",
             timestamp := some now }⟩)
    ∧
    (∀ (env : Env) (b : ReqBody) (now : String) (m : String) (s : String),
      jsTruthy (jsOr b.botToken (envVal env.BOT_TOKEN)) = true →
      jsTruthy (jsOr b.chatId (envVal env.CHAT_ID)) = true →
      jsTruthy (jsOr b.photoUrl b.photo) = false →
      b.photoBase64 = some (JsVal.str s) → s ≠ "" →
        (handler1 env ⟨"POST", .parsed b⟩ (.netErr m) now).1 =
          ⟨500, corsHeaders1,
           { success := some false,
             error := some "Network error: Unable to reach Telegram API",
             timestamp := some now }⟩)
    ∧
    (∀ (env : Env) (oqs : Option QS0) (obody : Option String) (b64 : Bool) (m : String),
      truthyS (sOr (oqs.getD {}).botToken env.BOT_TOKEN) = true →
      truthyS (sOr (oqs.getD {}).chatId env.CHAT_ID) = true →
      rawBufLen obody b64 ≠ 0 →
        (handler0 env ⟨"POST", oqs, obody, b64⟩ (.netErr m)).1 =
          ⟨500, corsHeadersB,
           { ok := some false, error := some (orDefaultStr m "Internal error") }⟩)
    ∧
    (∀ (env : Env) (ev : Event2) (p : MpOut) (m : String),
      ev.httpMethod = "POST" → parseMultipart ev = .ok p →
      truthyS (sOr (getField p.fields "botToken") env.BOT_TOKEN) = true →
      truthyS (sOr (getField p.fields "chatId") env.CHAT_ID) = true →
      p.fileBuffer.getD 0 ≠ 0 →
        (handler2 env ev (.netErr m)).1 =
          ⟨500, corsHeadersB,
           { ok := some false, error := some (orDefaultStr m "Internal error") }⟩) := by
  refine ⟨fun env b now m h1 h2 h3 => ?_,
          fun env b now m s h1 h2 h3 hb hs => ?_,
          fun env oqs obody b64 m h1 h2 h3 => ?_,
          fun env ev p m hm hp h1 h2 h3 => ?_⟩
  · simp [handler1, h1, h2, h3, netFailResp1]
  · have h4 : jsTruthy (some (JsVal.str s)) = true := by
      simp [jsTruthy, JsVal.truthy, hs]
    simp [handler1, h1, h2, h3, h4, hb, netFailResp1]
  · simp [handler0, h1, h2, h3, rawNetResp]
  · simp [handler2, hm, hp, h1, h2, h3, rawNetResp]

/-- C5 witness: the first conjunct of the network error mapping theorem at a
concrete URL request whose outbound call timed out. -/
theorem c5_witness :
    (handler1 ⟨none, none⟩
      ⟨"POST", .parsed { botToken := some (.str "t"), chatId := some (.str "c"),
                         photoUrl := some (.str "u") }⟩
      (.netErr "timeout of 10000ms exceeded") "ts").1 =
      ⟨500, corsHeaders1,
       { success := some false,
         error := some "Network error: Unable to reach Telegram API",
         timestamp := some "ts" }⟩ :=
  c5_network_error_mapping.1 ⟨none, none⟩
    { botToken := some (.str "t"), chatId := some (.str "c"), photoUrl := some (.str "u") }
    "ts" "timeout of 10000ms exceeded" (by decide) (by decide) (by decide)

/-! ## Helper lemmas shared by the optional field claims -/

/-- Truthiness of a lifted environment value agrees with string truthiness. -/
theorem jsTruthy_envVal (o : Option String) : jsTruthy (envVal o) = truthyS o := by
  cases o <;> simp [envVal, jsTruthy, JsVal.truthy, truthyS]

/-- Truthiness of a present string value. -/
theorem truthyS_some (s : String) : truthyS (some s) = (s != "") := rfl

/-- Truthiness of the fallback expression a || b decomposes disjunctively. -/
theorem jsTruthy_jsOr (a b : Option JsVal) :
    jsTruthy (jsOr a b) = (jsTruthy a || jsTruthy b) := by
  cases h : jsTruthy a <;> simp [jsOr, h]

/-- Truthiness of the string fallback a || b decomposes disjunctively. -/
theorem truthyS_sOr (a b : Option String) :
    truthyS (sOr a b) = (truthyS a || truthyS b) := by
  cases h : truthyS a <;> simp [sOr, h]

/-- The caption append contributes a caption field exactly when the caption
value is truthy. -/
theorem capParts_caption (o : Option JsVal) :
    (capParts o).any (partIsField "caption") = jsTruthy o := by
  cases o with
  | none => rfl
  | some c =>
    simp only [capParts]
    split <;> simp_all [partIsField, jsTruthy]

/-- The caption append never contributes a message_thread_id field. -/
theorem capParts_tid (o : Option JsVal) :
    (capParts o).any (partIsField "message_thread_id") = false := by
  cases o with
  | none => rfl
  | some c =>
    simp only [capParts]
    split <;> rfl

/-- The parse_mode append never contributes a caption field. -/
theorem pmParts_caption (o : Option JsVal) :
    (pmParts o).any (partIsField "caption") = false := by
  cases o with
  | none => rfl
  | some pm =>
    simp only [pmParts]
    split <;> rfl

/-- The parse_mode append never contributes a message_thread_id field. -/
theorem pmParts_tid (o : Option JsVal) :
    (pmParts o).any (partIsField "message_thread_id") = false := by
  cases o with
  | none => rfl
  | some pm =>
    simp only [pmParts]
    split <;> rfl

/-- The thread id append never contributes a caption field. -/
theorem tidParts_caption (o : Option JsVal) :
    (tidParts o).any (partIsField "caption") = false := by
  rcases o with _ | v
  · rfl
  · cases v <;> rfl

/-- The thread id append contributes a message_thread_id field exactly when
the value passes the undefined and null guard. -/
theorem tidParts_tid (o : Option JsVal) :
    (tidParts o).any (partIsField "message_thread_id") = sentThread o := by
  rcases o with _ | v
  · rfl
  · cases v <;> rfl

/-! ## Claim C6 -/

/-- C6 counterexample: a present-but-blank caption is not treated as absent
on the JSON path; the outbound payload carries caption as the empty string,
refuting the claim that blank optional fields are omitted from the outbound
call. -/
theorem c6_counterexample :
    (handler1 ⟨none, none⟩
      ⟨"POST", .parsed { botToken := some (.str "t"), chatId := some (.str "c"),
                         photoUrl := some (.str "u"), caption := some (.str "") }⟩
      (.ok ⟨.num 1, .str "c"⟩) "ts").2 =
      .json "https://api.telegram.org/bott/sendPhoto"
        { chat_id := some (.str "c"), photo := some (.str "u"),
          caption := some (.str ""), message_thread_id := none, parse_mode := none }
        10000 := by decide

/-- C6 amended: only an undefined caption or threadId is omitted from the
outbound call. On the JSON path the payload carries caption and threadId
verbatim, so blank, whitespace-only and null values are sent; on the
multipart path the caption field is appended exactly when the caption is
truthy (blank omitted, whitespace-only sent) and the message_thread_id field
is appended exactly when the threadId is neither undefined nor null (blank
sent). -/
theorem c6_optional_field_handling :
    (∀ (env : Env) (b : ReqBody) (net : AxiosOutcome) (now : String),
      jsTruthy (jsOr b.botToken (envVal env.BOT_TOKEN)) = true →
      jsTruthy (jsOr b.chatId (envVal env.CHAT_ID)) = true →
      jsTruthy (jsOr b.photoUrl b.photo) = true →
        (handler1 env ⟨"POST", .parsed b⟩ net now).2 =
          .json (tgApiUrl (tmplVal (jsOr b.botToken (envVal env.BOT_TOKEN))))
            { chat_id := jsOr b.chatId (envVal env.CHAT_ID),
              photo := jsOr b.photoUrl b.photo,
              caption := b.caption,
              message_thread_id := b.threadId,
              parse_mode := if jsTruthy b.parseMode then b.parseMode else none }
            10000)
    ∧
    (∀ (env : Env) (b : ReqBody) (net : AxiosOutcome) (now : String) (s : String),
      jsTruthy (jsOr b.botToken (envVal env.BOT_TOKEN)) = true →
      jsTruthy (jsOr b.chatId (envVal env.CHAT_ID)) = true →
      jsTruthy (jsOr b.photoUrl b.photo) = false →
      b.photoBase64 = some (JsVal.str s) → s ≠ "" →
        formHasField (handler1 env ⟨"POST", .parsed b⟩ net now).2 "caption" =
          jsTruthy b.caption ∧
        formHasField (handler1 env ⟨"POST", .parsed b⟩ net now).2 "message_thread_id" =
          sentThread b.threadId) := by
  refine ⟨fun env b net now h1 h2 h3 => ?_,
          fun env b net now s h1 h2 h3 hb hs => ?_⟩
  · cases net <;> simp [handler1, h1, h2, h3]
  · have h4 : jsTruthy (some (JsVal.str s)) = true := by
      simp [jsTruthy, JsVal.truthy, hs]
    constructor <;>
      cases net <;>
        simp [handler1, h1, h2, h3, h4, hb, formHasField, List.any_append,
              capParts_caption, capParts_tid, pmParts_caption, pmParts_tid,
              tidParts_caption, tidParts_tid, partIsField]

/-- C6 witness: the first conjunct applied at a request with an undefined
caption and threadId, showing both are omitted from the JSON payload. -/
theorem c6_witness :
    (handler1 ⟨none, none⟩
      ⟨"POST", .parsed { botToken := some (.str "t"), chatId := some (.str "c"),
                         photoUrl := some (.str "u") }⟩
      (.ok ⟨.num 1, .str "c"⟩) "ts").2 =
      .json (tgApiUrl "t")
        { chat_id := some (.str "c"), photo := some (.str "u"),
          caption := none, message_thread_id := none, parse_mode := none }
        10000 := by
  have h := c6_optional_field_handling.1 ⟨none, none⟩
    { botToken := some (.str "t"), chatId := some (.str "c"), photoUrl := some (.str "u") }
    (.ok ⟨.num 1, .str "c"⟩) "ts" (by decide) (by decide) (by decide)
  simpa using h

/-! ## Claim C7 -/

/-- C7 counterexample: a thread id supplied as the string "5" on the JSON
path is forwarded as the string "5", not serialized as a number, refuting the
claim that the JSON path sends message_thread_id as a number regardless of
the type the caller supplied. -/
theorem c7_counterexample :
    (handler1 ⟨none, none⟩
      ⟨"POST", .parsed { botToken := some (.str "t"), chatId := some (.str "c"),
                         photoUrl := some (.str "u"), threadId := some (.str "5") }⟩
      (.ok ⟨.num 1, .str "c"⟩) "ts").2 =
      .json "https://api.telegram.org/bott/sendPhoto"
        { chat_id := some (.str "c"), photo := some (.str "u"),
          caption := none, message_thread_id := some (.str "5"), parse_mode := none }
        10000 := by decide

/-- C7 amended: the JSON path forwards message_thread_id exactly as the
caller supplied it, with its type unchanged (a number stays a number, a
string stays a string); the multipart path serializes it with String(), so a
string form field is sent there regardless of the supplied type. -/
theorem c7_thread_id_serialization :
    (∀ (env : Env) (b : ReqBody) (net : AxiosOutcome) (now : String),
      jsTruthy (jsOr b.botToken (envVal env.BOT_TOKEN)) = true →
      jsTruthy (jsOr b.chatId (envVal env.CHAT_ID)) = true →
      jsTruthy (jsOr b.photoUrl b.photo) = true →
        ((handler1 env ⟨"POST", .parsed b⟩ net now).2.jsonPayload?).map
            JsonPayload.message_thread_id = some b.threadId)
    ∧
    (∀ (env : Env) (b : ReqBody) (net : AxiosOutcome) (now : String) (s : String) (v : JsVal),
      jsTruthy (jsOr b.botToken (envVal env.BOT_TOKEN)) = true →
      jsTruthy (jsOr b.chatId (envVal env.CHAT_ID)) = true →
      jsTruthy (jsOr b.photoUrl b.photo) = false →
      b.photoBase64 = some (JsVal.str s) → s ≠ "" →
      b.threadId = some v → v ≠ JsVal.null →
        (handler1 env ⟨"POST", .parsed b⟩ net now).2 =
          .form (tgApiUrl (tmplVal (jsOr b.botToken (envVal env.BOT_TOKEN))))
            ([FormPart.field "chat_id" (JsVal.str (tmplVal (jsOr b.chatId (envVal env.CHAT_ID)))),
              FormPart.file "photo" (b64DecodedLen s)
                (jsOr b.fileName (some (JsVal.str "photo.png")))
                (jsOr b.mimeType (some (JsVal.str "image/png")))]
             ++ capParts b.caption ++ pmParts b.parseMode
             ++ [FormPart.field "message_thread_id" (JsVal.str (jsToString v))])
            20000) := by
  refine ⟨fun env b net now h1 h2 h3 => ?_,
          fun env b net now s v h1 h2 h3 hb hs htid hv => ?_⟩
  · cases net <;> simp [handler1, h1, h2, h3] <;> exact ⟨_, rfl, rfl⟩
  · have h4 : jsTruthy (some (JsVal.str s)) = true := by
      simp [jsTruthy, JsVal.truthy, hs]
    cases v with
    | null => exact absurd rfl hv
    | str s2 => cases net <;> simp [handler1, h1, h2, h3, h4, hb, htid, tidParts]
    | num n => cases net <;> simp [handler1, h1, h2, h3, h4, hb, htid, tidParts]

/-- C7 witness: the second conjunct applied at a base64 request carrying the
numeric thread id 7, showing the multipart path sends the string "7". -/
theorem c7_witness :
    (handler1 ⟨none, none⟩
      ⟨"POST", .parsed { botToken := some (.str "t"), chatId := some (.str "c"),
                         photoBase64 := some (.str "AAAA"), threadId := some (.num 7) }⟩
      (.ok ⟨.num 1, .str "c"⟩) "ts").2 =
      .form (tgApiUrl "t")
        [FormPart.field "chat_id" (JsVal.str "c"),
         FormPart.file "photo" 3 (some (JsVal.str "photo.png")) (some (JsVal.str "image/png")),
         FormPart.field "message_thread_id" (JsVal.str "7")] 20000 := by
  have h := c7_thread_id_serialization.2 ⟨none, none⟩
    { botToken := some (.str "t"), chatId := some (.str "c"),
      photoBase64 := some (.str "AAAA"), threadId := some (.num 7) }
    (.ok ⟨.num 1, .str "c"⟩) "ts" "AAAA" (.num 7)
    (by decide) (by decide) (by decide) (by decide) (by decide) (by decide) (by decide)
  simpa [capParts, pmParts, tgApiUrl, tmplVal, jsToString, jsOr, b64DecodedLen] using h

/-! ## Claim C8 -/

/-- C8 counterexample: on the base64 path a truthy photoBase64 with no valid
base64 characters decodes to a zero length buffer, and the handler uploads it
without any length check, refuting the invariant for the base64 handler. -/
theorem c8_counterexample :
    (handler1 ⟨none, none⟩
      ⟨"POST", .parsed { botToken := some (.str "t"), chatId := some (.str "c"),
                         photoBase64 := some (.str "!") }⟩
      (.ok ⟨.num 1, .str "c"⟩) "ts").2 =
      .form "https://api.telegram.org/bott/sendPhoto"
        [FormPart.field "chat_id" (JsVal.str "c"),
         FormPart.file "photo" 0 (some (JsVal.str "photo.png")) (some (JsVal.str "image/png"))]
        20000 := by decide

/-- C8 amended: the raw-body and multipart handlers maintain the invariant:
every photo file part of a submission they perform has positive byte length,
and a zero length buffer is rejected with a 400 before any outbound call; the
base64 path of the JSON handler performs no such check and can upload a zero
length buffer. -/
theorem c8_buffer_length_invariant :
    (∀ (env : Env) (ev : Event0) (net : AxiosOutcome),
      ∀ l ∈ photoLens ((handler0 env ev net).2.parts), 0 < l)
    ∧
    (∀ (env : Env) (ev : Event2) (net : AxiosOutcome),
      ∀ l ∈ photoLens ((handler2 env ev net).2.parts), 0 < l)
    ∧
    (∀ (env : Env) (oqs : Option QS0) (obody : Option String) (b64 : Bool) (net : AxiosOutcome),
      truthyS (sOr (oqs.getD {}).botToken env.BOT_TOKEN) = true →
      truthyS (sOr (oqs.getD {}).chatId env.CHAT_ID) = true →
      rawBufLen obody b64 = 0 →
        handler0 env ⟨"POST", oqs, obody, b64⟩ net =
          (⟨400, corsHeadersB, { ok := some false, error := some "Empty file body" }⟩, .noCall))
    ∧
    (∀ (env : Env) (ev : Event2) (net : AxiosOutcome) (p : MpOut),
      ev.httpMethod = "POST" → parseMultipart ev = .ok p →
      truthyS (sOr (getField p.fields "botToken") env.BOT_TOKEN) = true →
      truthyS (sOr (getField p.fields "chatId") env.CHAT_ID) = true →
      p.fileBuffer.getD 0 = 0 →
        handler2 env ev net =
          (⟨400, corsHeadersB, { ok := some false, error := some "photo file is required" }⟩, .noCall)) := by
  refine ⟨fun env ev net l hl => ?_,
          fun env ev net l hl => ?_,
          fun env oqs obody b64 net h1 h2 h3 => ?_,
          fun env ev net p hm hp h1 h2 h3 => ?_⟩
  · simp only [handler0] at hl
    repeat' split at hl
    all_goals simp_all [Submission.parts, photoLens]
    all_goals omega
  · simp only [handler2] at hl
    repeat' split at hl
    all_goals simp_all [Submission.parts, photoLens]
    all_goals omega
  · simp [handler0, h1, h2, h3]
  · simp [handler2, hm, hp, h1, h2, h3]

/-- C8 witness: the raw-body invariant conjunct applied at a concrete request
whose three byte buffer reaches the form post. -/
theorem c8_witness :
    3 ∈ photoLens ((handler0 ⟨some "t", some "c"⟩ ⟨"POST", none, some "AAAA", true⟩
        (.ok ⟨.num 1, .str "c"⟩)).2.parts) ∧ (0 : Nat) < 3 :=
  ⟨by decide,
   c8_buffer_length_invariant.1 ⟨some "t", some "c"⟩ ⟨"POST", none, some "AAAA", true⟩
     (.ok ⟨.num 1, .str "c"⟩) 3 (by decide)⟩

/-! ## Claim C9 -/

/-- C9: on the modelled raw-body extended handler, a present threadId query
parameter that does not parse as a number yields status 400 with an
InvalidParameter error saying threadId must be numeric (given resolving
credentials, which the validation order checks first), and an absent threadId
never produces an InvalidParameter error. -/
theorem c9_threadid_validation :
    (∀ (env : Env) (qs : QSX) (obody : Option String) (b64 : Bool)
       (net : AxiosOutcome) (t : String),
      qs.threadId = some t → specIsNumeric t = false →
      truthyS (sOr qs.botToken env.BOT_TOKEN) = true →
      truthyS (sOr qs.chatId env.CHAT_ID) = true →
        handlerX env ⟨"POST", some qs, obody, b64⟩ net =
          (⟨400, some .invalidParameter, some "threadId must be numeric", false, none⟩, .noCall))
    ∧
    (∀ (env : Env) (ev : EventX) (net : AxiosOutcome),
      (ev.queryStringParameters.getD {}).threadId = none →
        (handlerX env ev net).1.errKind ≠ some ErrKind.invalidParameter) := by
  refine ⟨fun env qs obody b64 net t hqt ht h1 h2 => ?_, fun env ev net hqt => ?_⟩
  · simp [handlerX, h1, h2, hqt, ht]
  · intro hk
    rcases ev with ⟨m, oqs, ob, b64⟩
    dsimp only at hqt
    simp only [handlerX, handlerXSend] at hk
    simp only [hqt] at hk
    repeat' split at hk
    all_goals simp_all

/-- C9 witness: the first conjunct applied at a request with threadId abc. -/
theorem c9_witness :
    handlerX ⟨none, none⟩
      ⟨"POST", some { botToken := some "t", chatId := some "c", threadId := some "abc" },
       some "AAAA", true⟩ (.ok ⟨.num 1, .str "c"⟩) =
      (⟨400, some .invalidParameter, some "threadId must be numeric", false, none⟩, .noCall) :=
  c9_threadid_validation.1 ⟨none, none⟩
    { botToken := some "t", chatId := some "c", threadId := some "abc" }
    (some "AAAA") true (.ok ⟨.num 1, .str "c"⟩) "abc" rfl (by decide) (by decide) (by decide)

/-! ## Claim C10 -/

/-- C10: on every handler variant a request-supplied botToken or chatId that
is falsy (empty string, null, 0, or absent) is treated as absent and silently
replaced by the configured environment default, so an explicitly empty
credential can never override a configured default: with a falsy request
credential and a truthy default the submission is built from the default (the
URL from the default token, the chat_id field from the default chat id), and
the missing credential error occurs exactly when the request value and the
environment default are both falsy: sufficiency is proved by the error
conjuncts and necessity by the conjuncts deriving both-falsy from the
missing credential response itself. -/
theorem c10_credential_fallback :
    (∀ (env : Env) (b : ReqBody) (net : AxiosOutcome) (now : String),
      (∀ t : String, jsTruthy b.botToken = false → env.BOT_TOKEN = some t → t ≠ "" →
        jsTruthy (jsOr b.chatId (envVal env.CHAT_ID)) = true →
        jsTruthy (jsOr b.photoUrl b.photo) = true →
          (handler1 env ⟨"POST", .parsed b⟩ net now).2.url? = some (tgApiUrl t)) ∧
      (jsTruthy b.botToken = false → truthyS env.BOT_TOKEN = false →
        (handler1 env ⟨"POST", .parsed b⟩ net now).1 =
          ⟨400, corsHeaders1,
           { error := some "Bot token is required (either in request body or BOT_TOKEN environment variable)",
             hasExample := true }⟩) ∧
      (∀ c : String, jsTruthy (jsOr b.botToken (envVal env.BOT_TOKEN)) = true →
        jsTruthy b.chatId = false → env.CHAT_ID = some c → c ≠ "" →
        jsTruthy (jsOr b.photoUrl b.photo) = true →
          (handler1 env ⟨"POST", .parsed b⟩ net now).2.chatField? = some (JsVal.str c)) ∧
      (jsTruthy (jsOr b.botToken (envVal env.BOT_TOKEN)) = true →
       jsTruthy b.chatId = false → truthyS env.CHAT_ID = false →
        (handler1 env ⟨"POST", .parsed b⟩ net now).1 =
          ⟨400, corsHeaders1,
           { error := some "Chat ID is required (either in request body or CHAT_ID environment variable)",
             hasExample := true }⟩) ∧
      (handler1 env ⟨"POST", .parsed b⟩ net now =
          (⟨400, corsHeaders1,
            { error := some "Bot token is required (either in request body or BOT_TOKEN environment variable)",
              hasExample := true }⟩, .noCall) →
        jsTruthy b.botToken = false ∧ truthyS env.BOT_TOKEN = false) ∧
      (handler1 env ⟨"POST", .parsed b⟩ net now =
          (⟨400, corsHeaders1,
            { error := some "Chat ID is required (either in request body or CHAT_ID environment variable)",
              hasExample := true }⟩, .noCall) →
        jsTruthy b.chatId = false ∧ truthyS env.CHAT_ID = false))
    ∧
    (∀ (env : Env) (oqs : Option QS0) (obody : Option String) (b64 : Bool) (net : AxiosOutcome),
      (∀ t : String, truthyS (oqs.getD {}).botToken = false → env.BOT_TOKEN = some t → t ≠ "" →
        truthyS (sOr (oqs.getD {}).chatId env.CHAT_ID) = true →
        rawBufLen obody b64 ≠ 0 →
          (handler0 env ⟨"POST", oqs, obody, b64⟩ net).2.url? = some (tgApiUrl t)) ∧
      (truthyS (oqs.getD {}).botToken = false → truthyS env.BOT_TOKEN = false →
        (handler0 env ⟨"POST", oqs, obody, b64⟩ net).1 =
          ⟨400, corsHeadersB, { ok := some false, error := some "botToken is required" }⟩) ∧
      (∀ c : String, truthyS (sOr (oqs.getD {}).botToken env.BOT_TOKEN) = true →
        truthyS (oqs.getD {}).chatId = false → env.CHAT_ID = some c → c ≠ "" →
        rawBufLen obody b64 ≠ 0 →
          (handler0 env ⟨"POST", oqs, obody, b64⟩ net).2.chatField? = some (JsVal.str c)) ∧
      (truthyS (sOr (oqs.getD {}).botToken env.BOT_TOKEN) = true →
       truthyS (oqs.getD {}).chatId = false → truthyS env.CHAT_ID = false →
        (handler0 env ⟨"POST", oqs, obody, b64⟩ net).1 =
          ⟨400, corsHeadersB, { ok := some false, error := some "chatId is required" }⟩) ∧
      (handler0 env ⟨"POST", oqs, obody, b64⟩ net =
          (⟨400, corsHeadersB, { ok := some false, error := some "botToken is required" }⟩, .noCall) →
        truthyS (oqs.getD {}).botToken = false ∧ truthyS env.BOT_TOKEN = false) ∧
      (handler0 env ⟨"POST", oqs, obody, b64⟩ net =
          (⟨400, corsHeadersB, { ok := some false, error := some "chatId is required" }⟩, .noCall) →
        truthyS (oqs.getD {}).chatId = false ∧ truthyS env.CHAT_ID = false))
    ∧
    (∀ (env : Env) (ev : Event2) (net : AxiosOutcome) (p : MpOut),
      ev.httpMethod = "POST" → parseMultipart ev = .ok p →
      (∀ t : String, truthyS (getField p.fields "botToken") = false →
        env.BOT_TOKEN = some t → t ≠ "" →
        truthyS (sOr (getField p.fields "chatId") env.CHAT_ID) = true →
        p.fileBuffer.getD 0 ≠ 0 →
          (handler2 env ev net).2.url? = some (tgApiUrl t)) ∧
      (truthyS (getField p.fields "botToken") = false → truthyS env.BOT_TOKEN = false →
        (handler2 env ev net).1 =
          ⟨400, corsHeadersB, { ok := some false, error := some "botToken is required" }⟩) ∧
      (∀ c : String, truthyS (sOr (getField p.fields "botToken") env.BOT_TOKEN) = true →
        truthyS (getField p.fields "chatId") = false → env.CHAT_ID = some c → c ≠ "" →
        p.fileBuffer.getD 0 ≠ 0 →
          (handler2 env ev net).2.chatField? = some (JsVal.str c)) ∧
      (truthyS (sOr (getField p.fields "botToken") env.BOT_TOKEN) = true →
       truthyS (getField p.fields "chatId") = false → truthyS env.CHAT_ID = false →
        (handler2 env ev net).1 =
          ⟨400, corsHeadersB, { ok := some false, error := some "chatId is required" }⟩) ∧
      (handler2 env ev net =
          (⟨400, corsHeadersB, { ok := some false, error := some "botToken is required" }⟩, .noCall) →
        truthyS (getField p.fields "botToken") = false ∧ truthyS env.BOT_TOKEN = false) ∧
      (handler2 env ev net =
          (⟨400, corsHeadersB, { ok := some false, error := some "chatId is required" }⟩, .noCall) →
        truthyS (getField p.fields "chatId") = false ∧ truthyS env.CHAT_ID = false)) := by
  refine ⟨fun env b net now => ⟨?_, ?_, ?_, ?_, ?_, ?_⟩,
          fun env oqs obody b64 net => ⟨?_, ?_, ?_, ?_, ?_, ?_⟩,
          fun env ev net p hm hp => ⟨?_, ?_, ?_, ?_, ?_, ?_⟩⟩
  · intro t hbt henv htn h2 h3
    have h1 : jsTruthy (jsOr b.botToken (envVal env.BOT_TOKEN)) = true := by
      simp [jsOr, hbt, henv, jsTruthy_envVal, truthyS, htn]
    cases net <;>
      simp [handler1, h1, h2, h3, Submission.url?, tgApiUrl] <;>
      simp [jsOr, hbt, henv, tmplVal, jsToString, envVal]
  · intro hbt henvf
    have h1 : jsTruthy (jsOr b.botToken (envVal env.BOT_TOKEN)) = false := by
      simp [jsOr, hbt, jsTruthy_envVal, henvf]
    simp [handler1, h1]
  · intro c h1 hbc henvc hcn h3
    have h2 : jsTruthy (jsOr b.chatId (envVal env.CHAT_ID)) = true := by
      simp [jsOr, hbc, henvc, jsTruthy_envVal, truthyS, hcn]
    cases net <;>
      simp [handler1, h1, h2, h3, Submission.chatField?] <;>
      simp [jsOr, hbc, henvc, envVal]
  · intro h1 hbc henvcf
    have h2 : jsTruthy (jsOr b.chatId (envVal env.CHAT_ID)) = false := by
      simp [jsOr, hbc, jsTruthy_envVal, henvcf]
    simp [handler1, h1, h2]
  · intro heq
    cases ht : jsTruthy (jsOr b.botToken (envVal env.BOT_TOKEN)) with
    | false =>
      rw [jsTruthy_jsOr, jsTruthy_envVal] at ht
      simpa using ht
    | true =>
      exfalso
      cases h2 : jsTruthy (jsOr b.chatId (envVal env.CHAT_ID)) with
      | false => simp [handler1, ht, h2] at heq
      | true =>
        cases h3 : jsTruthy (jsOr b.photoUrl b.photo) with
        | true => cases net <;> simp [handler1, ht, h2, h3] at heq
        | false =>
          cases h4 : jsTruthy b.photoBase64 with
          | false => simp [handler1, ht, h2, h3, h4] at heq
          | true =>
            rcases hb : b.photoBase64 with _ | v
            · rw [hb] at h4
              simp [jsTruthy] at h4
            · cases v with
              | null =>
                rw [hb] at h4
                simp [jsTruthy, JsVal.truthy] at h4
              | str s =>
                have h4s : jsTruthy (some (JsVal.str s)) = true := hb ▸ h4
                cases net <;> simp [handler1, ht, h2, h3, h4s, hb] at heq
              | num n =>
                have h4n : jsTruthy (some (JsVal.num n)) = true := hb ▸ h4
                simp [handler1, ht, h2, h3, h4n, hb] at heq
  · intro heq
    cases h2 : jsTruthy (jsOr b.chatId (envVal env.CHAT_ID)) with
    | false =>
      rw [jsTruthy_jsOr, jsTruthy_envVal] at h2
      simpa using h2
    | true =>
      exfalso
      cases ht : jsTruthy (jsOr b.botToken (envVal env.BOT_TOKEN)) with
      | false => simp [handler1, ht] at heq
      | true =>
        cases h3 : jsTruthy (jsOr b.photoUrl b.photo) with
        | true => cases net <;> simp [handler1, ht, h2, h3] at heq
        | false =>
          cases h4 : jsTruthy b.photoBase64 with
          | false => simp [handler1, ht, h2, h3, h4] at heq
          | true =>
            rcases hb : b.photoBase64 with _ | v
            · rw [hb] at h4
              simp [jsTruthy] at h4
            · cases v with
              | null =>
                rw [hb] at h4
                simp [jsTruthy, JsVal.truthy] at h4
              | str s =>
                have h4s : jsTruthy (some (JsVal.str s)) = true := hb ▸ h4
                cases net <;> simp [handler1, ht, h2, h3, h4s, hb] at heq
              | num n =>
                have h4n : jsTruthy (some (JsVal.num n)) = true := hb ▸ h4
                simp [handler1, ht, h2, h3, h4n, hb] at heq
  · intro t hbt henv htn h2 h3
    have h1 : truthyS (sOr (oqs.getD {}).botToken env.BOT_TOKEN) = true := by
      simp [sOr, hbt, henv, truthyS_some, htn]
    simp [handler0, h1, h2, h3, Submission.url?, tgApiUrl]
    simp [sOr, hbt, henv, jsTemplateS]
  · intro hbt henvf
    have h1 : truthyS (sOr (oqs.getD {}).botToken env.BOT_TOKEN) = false := by
      simp [sOr, hbt, henvf]
    simp [handler0, h1]
  · intro c h1 hbc henvc hcn h3
    have h2 : truthyS (sOr (oqs.getD {}).chatId env.CHAT_ID) = true := by
      simp [sOr, hbc, henvc, truthyS_some, hcn]
    simp [handler0, h1, h2, h3, Submission.chatField?, formFieldVal, partIsField]
    simp [sOr, hbc, henvc, jsTemplateS]
  · intro h1 hbc henvcf
    have h2 : truthyS (sOr (oqs.getD {}).chatId env.CHAT_ID) = false := by
      simp [sOr, hbc, henvcf]
    simp [handler0, h1, h2]
  · intro heq
    cases ht : truthyS (sOr (oqs.getD {}).botToken env.BOT_TOKEN) with
    | false =>
      rw [truthyS_sOr] at ht
      simpa using ht
    | true =>
      exfalso
      cases h2 : truthyS (sOr (oqs.getD {}).chatId env.CHAT_ID) with
      | false => simp [handler0, ht, h2] at heq
      | true =>
        by_cases h3 : rawBufLen obody b64 = 0
        · simp [handler0, ht, h2, h3] at heq
        · simp [handler0, ht, h2, h3] at heq
  · intro heq
    cases h2 : truthyS (sOr (oqs.getD {}).chatId env.CHAT_ID) with
    | false =>
      rw [truthyS_sOr] at h2
      simpa using h2
    | true =>
      exfalso
      cases ht : truthyS (sOr (oqs.getD {}).botToken env.BOT_TOKEN) with
      | false => simp [handler0, ht] at heq
      | true =>
        by_cases h3 : rawBufLen obody b64 = 0
        · simp [handler0, ht, h2, h3] at heq
        · simp [handler0, ht, h2, h3] at heq
  · intro t hbt henv htn h2 h3
    have h1 : truthyS (sOr (getField p.fields "botToken") env.BOT_TOKEN) = true := by
      simp [sOr, hbt, henv, truthyS_some, htn]
    simp [handler2, hm, hp, h1, h2, h3, Submission.url?, tgApiUrl]
    simp [sOr, hbt, henv, jsTemplateS]
  · intro hbt henvf
    have h1 : truthyS (sOr (getField p.fields "botToken") env.BOT_TOKEN) = false := by
      simp [sOr, hbt, henvf]
    simp [handler2, hm, hp, h1]
  · intro c h1 hbc henvc hcn h3
    have h2 : truthyS (sOr (getField p.fields "chatId") env.CHAT_ID) = true := by
      simp [sOr, hbc, henvc, truthyS_some, hcn]
    simp [handler2, hm, hp, h1, h2, h3, Submission.chatField?, formFieldVal, partIsField]
    simp [sOr, hbc, henvc, jsTemplateS]
  · intro h1 hbc henvcf
    have h2 : truthyS (sOr (getField p.fields "chatId") env.CHAT_ID) = false := by
      simp [sOr, hbc, henvcf]
    simp [handler2, hm, hp, h1, h2]
  · intro heq
    cases ht : truthyS (sOr (getField p.fields "botToken") env.BOT_TOKEN) with
    | false =>
      rw [truthyS_sOr] at ht
      simpa using ht
    | true =>
      exfalso
      cases h2 : truthyS (sOr (getField p.fields "chatId") env.CHAT_ID) with
      | false => simp [handler2, hm, hp, ht, h2] at heq
      | true =>
        by_cases h3 : p.fileBuffer.getD 0 = 0
        · simp [handler2, hm, hp, ht, h2, h3] at heq
        · simp [handler2, hm, hp, ht, h2, h3] at heq
  · intro heq
    cases h2 : truthyS (sOr (getField p.fields "chatId") env.CHAT_ID) with
    | false =>
      rw [truthyS_sOr] at h2
      simpa using h2
    | true =>
      exfalso
      cases ht : truthyS (sOr (getField p.fields "botToken") env.BOT_TOKEN) with
      | false => simp [handler2, hm, hp, ht] at heq
      | true =>
        by_cases h3 : p.fileBuffer.getD 0 = 0
        · simp [handler2, hm, hp, ht, h2, h3] at heq
        · simp [handler2, hm, hp, ht, h2, h3] at heq

/-- C10 witness: the first conjunct of the fallback theorem applied at a
request whose botToken is the explicit empty string while the environment
provides the default secret, showing the submission goes to the URL built
from the default. -/
theorem c10_witness :
    (handler1 ⟨some "secret", none⟩
      ⟨"POST", .parsed { botToken := some (.str ""), chatId := some (.str "c"),
                         photoUrl := some (.str "u") }⟩
      (.ok ⟨.num 1, .str "c"⟩) "ts").2.url? = some (tgApiUrl "secret") :=
  (c10_credential_fallback.1 ⟨some "secret", none⟩
    { botToken := some (.str ""), chatId := some (.str "c"), photoUrl := some (.str "u") }
    (.ok ⟨.num 1, .str "c"⟩) "ts").1 "secret" (by decide) rfl (by decide) (by decide) (by decide)

end TgProxy
